import Mathlib

/-!
Shallow embedding of the VIAB BOQ Orchestrator Streamlit client (`app.py`).

JSON values are modelled by the inductive `Json`; Python dicts are
insertion-ordered association lists.  Dynamic (duck-typed) operations that can
raise in Python (`.get` on a non-dict, iterating a non-iterable, `str.join`
over non-strings, `x[k]` indexing, `.items()`, the `in` operator) are modelled
in the `Except PyErr` monad so that a Python exception is an explicit error
value.  UI calls (`st.markdown`, `st.table`, ...) have no data-level effect and
are not modelled; only the data accesses inside them that can raise are kept.
-/

/-- A JSON value as produced by Python's `json.loads`: `null`, booleans,
integers, non-integer numbers (mantissa `m` times ten to the power `e`),
strings, arrays and insertion-ordered objects. -/
inductive Json where
  | null : Json
  | bool : Bool → Json
  | num : Int → Json
  | fnum : Int → Int → Json
  | str : String → Json
  | arr : List Json → Json
  | obj : List (String × Json) → Json

/-- Exceptions raised by the modelled dynamic Python operations. -/
inductive PyErr where
  | attributeError : String → PyErr
  | typeError : String → PyErr
  | keyError : String → PyErr

/-- The single-quote character, written via its code point. -/
def pySq : String := String.mk [Char.ofNat 39]

/-- Wrap a string in single quotes (as CPython error messages do). -/
def quoted (s : String) : String := pySq ++ s ++ pySq

/-- Python's type name of a JSON value, as it appears in error messages. -/
def pyTypeName : Json → String
  | .null => "NoneType"
  | .bool _ => "bool"
  | .num _ => "int"
  | .fnum _ _ => "float"
  | .str _ => "str"
  | .arr _ => "list"
  | .obj _ => "dict"

/-- Python truthiness of a JSON value (`if x:`). -/
def truthy : Json → Bool
  | .null => false
  | .bool b => b
  | .num n => n != 0
  | .fnum m _ => m != 0
  | .str s => s != ""
  | .arr xs => !xs.isEmpty
  | .obj kvs => !kvs.isEmpty

/-- Key lookup in an insertion-ordered dict (`d[k]` / `k in d` share this). -/
def pyLookup (kvs : List (String × α)) (k : String) : Option α :=
  match kvs with
  | [] => none
  | (k₀, v₀) :: rest => if k₀ = k then some v₀ else pyLookup rest k

/-- Python dict assignment `d[k] = v`: overwrite in place if the key exists
(keeping its original position), else append. -/
def dictSet (kvs : List (String × α)) (k : String) (v : α) : List (String × α) :=
  if (pyLookup kvs k).isSome then
    kvs.map (fun p => if p.1 = k then (k, v) else p)
  else
    kvs ++ [(k, v)]

mutual

/-- Python `repr` of a JSON value (element rendering inside `str` of a
container).  String escaping inside `repr` is not modelled; no claim
depends on it. -/
def pyRepr : Json → String
  | .str s => quoted s
  | .arr xs => "[" ++ pyReprList xs ++ "]"
  | .obj kvs => "\x7b" ++ pyReprObj kvs ++ "\x7d"
  | .null => "None"
  | .bool true => "True"
  | .bool false => "False"
  | .num n => toString n
  | .fnum m e => toString m ++ "e" ++ toString e

/-- Comma-separated `repr`s of list elements. -/
def pyReprList : List Json → String
  | [] => ""
  | [x] => pyRepr x
  | x :: y :: rest => pyRepr x ++ ", " ++ pyReprList (y :: rest)

/-- Comma-separated `repr`s of dict entries. -/
def pyReprObj : List (String × Json) → String
  | [] => ""
  | [(k, v)] => quoted k ++ ": " ++ pyRepr v
  | (k, v) :: q :: rest => quoted k ++ ": " ++ pyRepr v ++ ", " ++ pyReprObj (q :: rest)

end

/-- Python `str` of a JSON value (used by f-string interpolation).  The
rendering of non-integer numbers is approximate; no claim depends on it. -/
def pyStr : Json → String
  | .str s => s
  | .arr xs => "[" ++ pyReprList xs ++ "]"
  | .obj kvs => "\x7b" ++ pyReprObj kvs ++ "\x7d"
  | .null => "None"
  | .bool true => "True"
  | .bool false => "False"
  | .num n => toString n
  | .fnum m e => toString m ++ "e" ++ toString e

/-- The whitespace characters removed by Python's `str.strip()`. -/
def isPyWs (c : Char) : Bool :=
  c = ' ' || c = '\t' || c = '\n' || c = '\r' || c = '\x0b' || c = '\x0c'

/-- `str.strip()` on a character list. -/
def pyStripList (l : List Char) : List Char :=
  ((l.dropWhile isPyWs).reverse.dropWhile isPyWs).reverse

/-- Python `str.strip()`. -/
def pyStrip (s : String) : String := String.mk (pyStripList s.data)

/-- Python `str.lower()` (ASCII case mapping suffices for this client). -/
def pyLower (s : String) : String := String.mk (s.data.map Char.toLower)

/-- `key.replace("_", " ")` — the only use of `str.replace` in the source,
always with a single-character pattern, so a character map is exact. -/
def pyUnderscoreToSpace (s : String) : String :=
  String.mk (s.data.map (fun c => if c = '_' then ' ' else c))

/-- One step of Python's `str.title()`: a letter is uppercased when the
previous character is not a letter, lowercased otherwise. -/
def pyTitleAux : List Char → Bool → List Char
  | [], _ => []
  | c :: rest, prevAlpha =>
    (if c.isAlpha then (if prevAlpha then c.toLower else c.toUpper) else c)
      :: pyTitleAux rest c.isAlpha

/-- Python `str.title()`. -/
def pyTitle (s : String) : String := String.mk (pyTitleAux s.data false)

/-- Does `needle` occur at the head of `hay`? -/
def leadsWith : List Char → List Char → Bool
  | [], _ => true
  | _ :: _, [] => false
  | a :: as, b :: bs => a == b && leadsWith as bs

/-- Does `hay` contain `needle` as a contiguous run? -/
def listContainsRun (needle : List Char) : List Char → Bool
  | [] => needle.isEmpty
  | c :: rest => leadsWith needle (c :: rest) || listContainsRun needle rest

/-- Python's `needle in hay` on strings (substring test). -/
def strContains (hay needle : String) : Bool := listContainsRun needle.data hay.data

/-!
## Response normalizer (`format_dict_data`, `format_workflow_response`)
-/

/-- The bullet glyph used by `format_dict_data` (the source file contains the
mojibake three-character sequence for a bullet). -/
def bulletStr : String := "‚Ä¢"

/-- Metadata keys skipped by `format_dict_data`. -/
def skipKeys : List String := ["timestamp", "user_id", "session_id", "workflow_type"]

/-- The lines contributed by one `(key, value)` entry of `format_dict_data`'s
loop: skip keys in the exclusion set; humanize the key; nested dict → header
plus indented bulleted sub-lines; list → header plus bullets; otherwise one
inline bold line. -/
def formatEntry (k : String) (v : Json) : List String :=
  if skipKeys.contains k then []
  else
    let fk := pyTitle (pyUnderscoreToSpace k)
    match v with
    | .obj sub =>
        ("**" ++ fk ++ ":**")
          :: sub.map (fun p =>
               "  " ++ bulletStr ++ " " ++ pyTitle (pyUnderscoreToSpace p.1) ++ ": " ++ pyStr p.2)
    | .arr items =>
        ("**" ++ fk ++ ":**") :: items.map (fun it => "  " ++ bulletStr ++ " " ++ pyStr it)
    | _ => ["**" ++ fk ++ ":** " ++ pyStr v]

/-- `format_dict_data(data)`: non-dicts are stringified; dict entries are
flattened in insertion order and joined with newlines. -/
def format_dict_data (data : Json) : String :=
  match data with
  | .obj kvs => String.intercalate "\n" ((kvs.map (fun p => formatEntry p.1 p.2)).flatten)
  | other => pyStr other

/-- The per-matched-value branch shared (textually repeated) by the
`boq_data`/`analysis_data`/`interview_data` arms of `format_workflow_response`:
a dict with a `content` key yields that value, a dict without one yields its
`format_dict_data` flattening, a string is taken as-is, anything else yields
nothing. -/
def handleData (d : Json) : List Json :=
  match d with
  | .obj kvs =>
      match pyLookup kvs "content" with
      | some c => [c]
      | none => [.str (format_dict_data (.obj kvs))]
  | .str s => [.str s]
  | _ => []

/-- The metadata inspection of one step: `boq_data`, else `analysis_data`,
else `interview_data` — first present key wins. -/
def metadataParts (md : List (String × Json)) : List Json :=
  match pyLookup md "boq_data" with
  | some v => handleData v
  | none =>
      match pyLookup md "analysis_data" with
      | some v => handleData v
      | none =>
          match pyLookup md "interview_data" with
          | some v => handleData v
          | none => []

/-- The parts appended for one entry of the results container: the truthy
`content` field, then the metadata contribution when `metadata` is a truthy
dict.  A non-dict entry raises `AttributeError` at `step.get`. -/
def processStep (step : Json) : Except PyErr (List Json) :=
  match step with
  | .obj kvs =>
      let content := (pyLookup kvs "content").getD (.str "")
      let contentParts := if truthy content then [content] else []
      let md := (pyLookup kvs "metadata").getD .null
      let mdParts :=
        if truthy md then
          match md with
          | .obj mkvs => metadataParts mkvs
          | _ => []
        else []
      .ok (contentParts ++ mdParts)
  | other =>
      .error (.attributeError (quoted (pyTypeName other) ++ " object has no attribute " ++ quoted "get"))

/-- The `for step in responses` loop over a list container, in order; the
first raising step aborts the whole call. -/
def stepsParts : List Json → Except PyErr (List Json)
  | [] => .ok []
  | s :: rest =>
      match processStep s with
      | .error e => .error e
      | .ok p =>
          match stepsParts rest with
          | .error e => .error e
          | .ok ps => .ok (p ++ ps)

/-- The container selection at the top of `format_workflow_response`:
`workflow_responses`, else `analysis_results`, else `boq_results`, else
`chat_responses`, else the empty list. -/
def selectResponses (result : List (String × Json)) : Json :=
  match pyLookup result "workflow_responses" with
  | some v => v
  | none =>
      match pyLookup result "analysis_results" with
      | some v => v
      | none =>
          match pyLookup result "boq_results" with
          | some v => v
          | none =>
              match pyLookup result "chat_responses" with
              | some v => v
              | none => .arr []

/-- `if responses:` followed by the loop.  A truthy non-list container raises
as in Python: iterating a dict yields string keys and iterating a string
yields one-character strings, so `step.get` raises `AttributeError`; a number
or boolean is not iterable. -/
def collectFromResponses (responses : Json) : Except PyErr (List Json) :=
  if truthy responses then
    match responses with
    | .arr xs => stepsParts xs
    | .obj _ =>
        .error (.attributeError (quoted "str" ++ " object has no attribute " ++ quoted "get"))
    | .str _ =>
        .error (.attributeError (quoted "str" ++ " object has no attribute " ++ quoted "get"))
    | other =>
        .error (.typeError (quoted (pyTypeName other) ++ " object is not iterable"))
  else .ok []

/-- All parts collected from the selected container of the payload. -/
def collectParts (result : List (String × Json)) : Except PyErr (List Json) :=
  collectFromResponses (selectResponses result)

/-- The fixed fallback block. -/
def fallbackBlock : Json := .str "Processing completed successfully."

/-- The block sequence of `format_workflow_response` just before joining:
the collected parts, or the single fallback block when none were produced. -/
def responseBlocks (result : List (String × Json)) : Except PyErr (List Json) :=
  match collectParts result with
  | .error e => .error e
  | .ok parts => .ok (if parts.isEmpty then [fallbackBlock] else parts)

/-- Python's `sep.join(parts)`: every part must be a string. -/
def pyJoinAux (parts : List Json) (i : Nat) : Except PyErr (List String) :=
  match parts with
  | [] => .ok []
  | .str s :: rest =>
      match pyJoinAux rest (i + 1) with
      | .error e => .error e
      | .ok tail => .ok (s :: tail)
  | other :: _ =>
      .error (.typeError ("sequence item " ++ toString i ++ ": expected str instance, "
        ++ pyTypeName other ++ " found"))

/-- Python's `sep.join(parts)`. -/
def pyJoin (sep : String) (parts : List Json) : Except PyErr String :=
  match pyJoinAux parts 0 with
  | .error e => .error e
  | .ok strs => .ok (String.intercalate sep strs)

/-- `format_workflow_response(result)`: collect blocks, fall back when empty,
join with blank lines. -/
def format_workflow_response (result : List (String × Json)) : Except PyErr String :=
  match responseBlocks result with
  | .error e => .error e
  | .ok blocks => pyJoin "\n\n" blocks

/-!
## Backend gateway (`send_to_workflow`) and module-level call sites
-/

/-- Default base URL (the `BASE_API_URL` environment override is external
configuration; claims do not depend on its value). -/
def BASE_API_URL : String := "http://localhost:8000"

def WORKFLOW_ENDPOINT : String := BASE_API_URL ++ "/api/v1/boq/workflow"

def ANALYZE_ENDPOINT : String := BASE_API_URL ++ "/api/v1/boq/analyze-only"

def BOQ_ENDPOINT : String := BASE_API_URL ++ "/api/v1/boq/generate-boq"

def CHAT_ENDPOINT : String := BASE_API_URL ++ "/api/v1/boq/chat"

/-- An uploaded file as seen by `send_to_workflow`: name, bytes, MIME type. -/
structure UploadedFile where
  name : String
  value : List Nat
  type : String
deriving DecidableEq

/-- The outgoing HTTP request assembled by `send_to_workflow` before posting:
chosen endpoint, form fields in insertion order, and the multipart files
payload (`None` when no files were attached). -/
structure BuiltRequest where
  endpoint : String
  formData : List (String × String)
  filesPayload : Option (List (String × UploadedFile))
deriving DecidableEq

/-- The request-construction phase of `send_to_workflow(msg, files, user_id,
session_id, endpoint_type)`: endpoint choice, the boq-mode default-message
substitution (`if not msg.lower().strip()`), the `user_input` form field
assignments, and the files payload (`files_payload if files_payload else
None`). -/
def send_to_workflow_request (msg : String) (files : Option (List UploadedFile))
    (user_id session_id endpoint_type : String) : BuiltRequest :=
  let data : List (String × String) := [("user_id", user_id), ("session_id", session_id)]
  let sel : String × String × List (String × String) :=
    if endpoint_type = "analyze" then
      (ANALYZE_ENDPOINT, msg, data)
    else if endpoint_type = "boq" then
      (BOQ_ENDPOINT,
       if pyStrip (pyLower msg) = "" then "Generate BOQ for uploaded files" else msg,
       data)
    else if endpoint_type = "chat" then
      (CHAT_ENDPOINT, msg, dictSet data "user_input" msg)
    else
      (WORKFLOW_ENDPOINT, msg, dictSet data "user_input" msg)
  let endpoint := sel.1
  let msg := sel.2.1
  let data := sel.2.2
  let data := if endpoint_type ≠ "chat" ∧ msg ≠ "" then dictSet data "user_input" msg else data
  let filesPayload : List (String × UploadedFile) :=
    match files with
    | some fs => if fs.isEmpty then [] else fs.map (fun f => ("files", f))
    | none => []
  { endpoint := endpoint
    formData := data
    filesPayload := if filesPayload.isEmpty then none else some filesPayload }

/-- Outcome of the `requests.post` call plus `raise_for_status()` and
`.json()`: either a `requests.exceptions.RequestException` (HTTP error
status, timeout, network failure, malformed JSON body) carrying its display
text, or a decoded JSON value. -/
inductive GatewayOutcome where
  | requestException : String → GatewayOutcome
  | jsonValue : Json → GatewayOutcome

/-- Message text of a modelled Python exception (`str(e)`; `KeyError`
stringifies as the quoted key). -/
def pyErrMsg : PyErr → String
  | .attributeError m => m
  | .typeError m => m
  | .keyError k => quoted k

/-- The response-handling phase of `send_to_workflow`: a request exception is
caught and rendered as a red backend-error line; a payload with truthy
`success` is normalized (a Python exception inside the normalizer is caught
by the generic handler); otherwise the backend-reported error is rendered,
with `"Unknown error"` as the default. -/
def send_to_workflow_result (outcome : GatewayOutcome) : String :=
  match outcome with
  | .requestException e => ":red[Backend error: " ++ e ++ "]"
  | .jsonValue j =>
      match j with
      | .obj kvs =>
          if truthy ((pyLookup kvs "success").getD .null) then
            match format_workflow_response kvs with
            | .ok s => s
            | .error e => ":red[Unexpected error: " ++ pyErrMsg e ++ "]"
          else
            ":red[Error: " ++ pyStr ((pyLookup kvs "error").getD (.str "Unknown error")) ++ "]"
      | other =>
          ":red[Unexpected error: " ++ quoted (pyTypeName other)
            ++ " object has no attribute " ++ quoted "get" ++ "]"

/-- One transcript entry (`{"role": ..., "msg": ...}`). -/
structure TranscriptEntry where
  role : String
  msg : String
deriving DecidableEq

/-- The chat-input handler's transcript effect: append the user message, then
append the assistant message produced by `send_to_workflow`. -/
def chatTurn (history : List TranscriptEntry) (user_msg : String)
    (outcome : GatewayOutcome) : List TranscriptEntry :=
  (history ++ [{ role := "user", msg := user_msg }])
    ++ [{ role := "assistant", msg := send_to_workflow_result outcome }]

/-- Sidebar: the upload widget exists only outside chat mode
(`uploaded_files = None` in chat mode). -/
def sidebarUploadedFiles (workflow_mode : String) (selected : List UploadedFile) :
    Option (List UploadedFile) :=
  if workflow_mode ≠ "chat" then some selected else none

/-- Sidebar: the upload button is rendered only outside chat mode and only
when files are selected (`upload_clicked = False` otherwise). -/
def sidebarUploadClicked (workflow_mode : String) (selected : List UploadedFile)
    (pressed : Bool) : Bool :=
  if workflow_mode ≠ "chat" then (if !selected.isEmpty then pressed else false) else false

/-- Chat-input handler: `files_to_send = uploaded_files if workflow_mode !=
"chat" else None`. -/
def filesToSendOnChat (workflow_mode : String) (uploaded : Option (List UploadedFile)) :
    Option (List UploadedFile) :=
  if workflow_mode ≠ "chat" then uploaded else none

/-!
## Sidebar identity resolution
-/

/-- The two identity slots of `st.session_state`. -/
structure StSessionState where
  userId : Option String
  sessionId : Option String
deriving DecidableEq

/-- The sidebar identity block: a non-empty user override wins for the
request but is not stored; otherwise the stored user id (or a fresh UUID) is
used and stored.  A non-empty session override wins and is stored; otherwise
the stored session id (or a fresh UUID) is used and stored.  The fresh UUID
strings are passed in as parameters. -/
def resolveIdentity (user_input_id session_input_id fresh_user fresh_session : String)
    (st : StSessionState) : String × String × StSessionState :=
  let userStep : String × StSessionState :=
    if user_input_id ≠ "" then (user_input_id, st)
    else
      let u := st.userId.getD fresh_user
      (u, { st with userId := some u })
  let user_id := userStep.1
  let st1 := userStep.2
  let sessionStep : String × StSessionState :=
    if session_input_id ≠ "" then (session_input_id, { st1 with sessionId := some session_input_id })
    else
      let s := st1.sessionId.getD fresh_session
      (s, { st1 with sessionId := some s })
  (user_id, sessionStep.1, sessionStep.2)

/-!
## Strict JSON parser (model of `json.loads`)

Fuel-indexed recursive descent over the character list; `pyParseJson` supplies
ample fuel.  It implements the strict JSON grammar (the `json` module default):
no trailing garbage, strict escapes, no control characters in strings, strict
number syntax.  Duplicate object keys follow Python semantics (last value
wins, first position kept).
-/

/-- Skip JSON whitespace. -/
def jsonSkipWs : List Char → List Char
  | [] => []
  | c :: rest =>
      if c = ' ' || c = '\t' || c = '\n' || c = '\r' then jsonSkipWs rest else c :: rest

/-- Value of one hexadecimal digit. -/
def hexVal (c : Char) : Option Nat :=
  if c.isDigit then some (c.toNat - 48)
  else if 'a' ≤ c && c ≤ 'f' then some (c.toNat - 87)
  else if 'A' ≤ c && c ≤ 'F' then some (c.toNat - 55)
  else none

/-- Parse the body of a JSON string after the opening quote, returning the
decoded characters and the remaining input after the closing quote. -/
def parseStringChars : List Char → Option (List Char × List Char)
  | [] => none
  | '"' :: rest => some ([], rest)
  | '\\' :: 'u' :: h1 :: h2 :: h3 :: h4 :: rest => do
      let a ← hexVal h1
      let b ← hexVal h2
      let c ← hexVal h3
      let d ← hexVal h4
      let (cs, r) ← parseStringChars rest
      pure (Char.ofNat (a * 4096 + b * 256 + c * 16 + d) :: cs, r)
  | '\\' :: e :: rest => do
      let c ← match e with
        | '"' => some '"'
        | '\\' => some '\\'
        | '/' => some '/'
        | 'b' => some (Char.ofNat 8)
        | 'f' => some (Char.ofNat 12)
        | 'n' => some '\n'
        | 'r' => some '\r'
        | 't' => some '\t'
        | _ => none
      let (cs, r) ← parseStringChars rest
      pure (c :: cs, r)
  | ['\\'] => none
  | c :: rest =>
      if c.toNat < 32 then none
      else do
        let (cs, r) ← parseStringChars rest
        pure (c :: cs, r)

/-- Numeric value of a digit list. -/
def digitsToNat (l : List Char) : Nat :=
  l.foldl (fun acc c => acc * 10 + (c.toNat - 48)) 0

/-- Parse the integer part of a JSON number (leading zeros rejected). -/
def parseIntPart : List Char → Option (Nat × List Char)
  | '0' :: c :: rest => if c.isDigit then none else some (0, c :: rest)
  | ['0'] => some (0, [])
  | c :: rest =>
      if c.isDigit then
        some (digitsToNat ((c :: rest).takeWhile Char.isDigit),
              (c :: rest).dropWhile Char.isDigit)
      else none
  | [] => none

/-- Parse an optional fraction part, returning its digits. -/
def parseFrac : List Char → Option (Option (List Char) × List Char)
  | '.' :: rest =>
      let ds := rest.takeWhile Char.isDigit
      if ds.isEmpty then none
      else some (some ds, rest.dropWhile Char.isDigit)
  | l => some (none, l)

/-- Parse an optional exponent part, returning the signed exponent. -/
def parseExp : List Char → Option (Option Int × List Char)
  | [] => some (none, [])
  | c :: rest =>
      if c = 'e' || c = 'E' then
        let signed : Int × List Char :=
          match rest with
          | '+' :: r => (1, r)
          | '-' :: r => (-1, r)
          | r => (1, r)
        let ds := signed.2.takeWhile Char.isDigit
        if ds.isEmpty then none
        else some (some (signed.1 * (digitsToNat ds : Int)), signed.2.dropWhile Char.isDigit)
      else some (none, c :: rest)

/-- Parse a JSON number: an integer literal yields `Json.num`, a literal with
fraction or exponent yields `Json.fnum` (a float in Python). -/
def parseNumber (l : List Char) : Option (Json × List Char) := do
  let signed : Bool × List Char :=
    match l with
    | '-' :: rest => (true, rest)
    | _ => (false, l)
  let (ip, l2) ← parseIntPart signed.2
  let (fr, l3) ← parseFrac l2
  let (ex, l4) ← parseExp l3
  match fr, ex with
  | none, none =>
      pure (Json.num (if signed.1 then -(ip : Int) else (ip : Int)), l4)
  | _, _ =>
      let fds := fr.getD []
      let m0 : Nat := ip * 10 ^ fds.length + digitsToNat fds
      pure (Json.fnum (if signed.1 then -(m0 : Int) else (m0 : Int))
              (ex.getD 0 - (fds.length : Int)), l4)

mutual

/-- Parse one JSON value (leading whitespace allowed). -/
def parseValue : Nat → List Char → Option (Json × List Char)
  | 0, _ => none
  | fuel + 1, l =>
      match jsonSkipWs l with
      | 't' :: 'r' :: 'u' :: 'e' :: rest => some (.bool true, rest)
      | 'f' :: 'a' :: 'l' :: 's' :: 'e' :: rest => some (.bool false, rest)
      | 'n' :: 'u' :: 'l' :: 'l' :: rest => some (.null, rest)
      | '"' :: rest => do
          let (cs, r) ← parseStringChars rest
          pure (Json.str (String.mk cs), r)
      | '{' :: rest => parseObjBody fuel (jsonSkipWs rest)
      | '[' :: rest => parseArrBody fuel (jsonSkipWs rest)
      | l1 => parseNumber l1

/-- Parse an object body after `{` (whitespace already skipped). -/
def parseObjBody : Nat → List Char → Option (Json × List Char)
  | 0, _ => none
  | fuel + 1, l =>
      match l with
      | '}' :: rest => some (.obj [], rest)
      | _ => parseMembers fuel l []

/-- Parse the members of a non-empty object. -/
def parseMembers : Nat → List Char → List (String × Json) → Option (Json × List Char)
  | 0, _, _ => none
  | fuel + 1, l, acc =>
      match jsonSkipWs l with
      | '"' :: rest => do
          let (cs, r1) ← parseStringChars rest
          match jsonSkipWs r1 with
          | ':' :: r3 => do
              let (v, r4) ← parseValue fuel r3
              match jsonSkipWs r4 with
              | ',' :: r5 => parseMembers fuel r5 (dictSet acc (String.mk cs) v)
              | '}' :: r5 => some (.obj (dictSet acc (String.mk cs) v), r5)
              | _ => none
          | _ => none
      | _ => none

/-- Parse an array body after `[` (whitespace already skipped). -/
def parseArrBody : Nat → List Char → Option (Json × List Char)
  | 0, _ => none
  | fuel + 1, l =>
      match l with
      | ']' :: rest => some (.arr [], rest)
      | _ => parseElems fuel l []

/-- Parse the elements of a non-empty array. -/
def parseElems : Nat → List Char → List Json → Option (Json × List Char)
  | 0, _, _ => none
  | fuel + 1, l, acc => do
      let (v, r) ← parseValue fuel l
      match jsonSkipWs r with
      | ',' :: r2 => parseElems fuel r2 (acc ++ [v])
      | ']' :: r2 => some (.arr (acc ++ [v]), r2)
      | _ => none

end

/-- `json.loads`: parse one value with ample fuel and reject trailing
garbage. -/
def pyParseJson (s : String) : Option Json :=
  match parseValue (4 * s.length + 16) s.data with
  | some (v, rest) => if (jsonSkipWs rest).isEmpty then some v else none
  | none => none

/-!
## Plan renderer / exporter (`render_plan_json`, `try_render_plan_json`,
`plan_json_to_pdf`, module-level export scan)
-/

/-- Python `==` between a string and a JSON value (used by list membership). -/
def jsonStrEq (needle : String) : Json → Bool
  | .str s => needle = s
  | _ => false

/-- Python's `needle in data`: key membership for dicts, element equality for
lists, substring for strings; `TypeError` otherwise. -/
def pyContains (needle : String) (data : Json) : Except PyErr Bool :=
  match data with
  | .obj kvs => .ok (pyLookup kvs needle).isSome
  | .arr xs => .ok (xs.any (jsonStrEq needle))
  | .str s => .ok (strContains s needle)
  | other =>
      .error (.typeError ("argument of type " ++ quoted (pyTypeName other) ++ " is not iterable"))

/-- `any(key in data for key in ("plan_summary", "room_details",
"elevation_details"))`, short-circuiting left to right. -/
def anyPlanKey (d : Json) : Except PyErr Bool :=
  match pyContains "plan_summary" d with
  | .error e => .error e
  | .ok true => .ok true
  | .ok false =>
      match pyContains "room_details" d with
      | .error e => .error e
      | .ok true => .ok true
      | .ok false => pyContains "elevation_details" d

/-- Python's `data[k]` with a string key. -/
def pyIndex (data : Json) (k : String) : Except PyErr Json :=
  match data with
  | .obj kvs =>
      match pyLookup kvs k with
      | some v => .ok v
      | none => .error (.keyError k)
  | .str _ => .error (.typeError "string indices must be integers")
  | .arr _ => .error (.typeError "list indices must be integers or slices, not str")
  | other => .error (.typeError (quoted (pyTypeName other) ++ " object is not subscriptable"))

/-- Python's `data.items()`. -/
def pyItems (data : Json) : Except PyErr (List (String × Json)) :=
  match data with
  | .obj kvs => .ok kvs
  | other =>
      .error (.attributeError (quoted (pyTypeName other) ++ " object has no attribute "
        ++ quoted "items"))

/-- The room-details loop of `render_plan_json`: each room's `details` must
support `.items()`. -/
def roomsCheck : List (String × Json) → Except PyErr Unit
  | [] => .ok ()
  | (_, details) :: rest => do
      let _ ← pyItems details
      roomsCheck rest

/-- The elevation-details loop of `render_plan_json`: a truthy side's details
must support `.items()`; a falsy side shows a placeholder. -/
def elevationsCheck : List (String × Json) → Except PyErr Unit
  | [] => .ok ()
  | (_, sd) :: rest => do
      if truthy sd then
        let _ ← pyItems sd
        elevationsCheck rest
      else
        elevationsCheck rest

/-- `render_plan_json(data)` reduced to its data accesses: the `st.*` calls
are pure UI output, so only the operations that can raise are modelled — the
three key-membership tests for the table of contents, then per present
section the indexing and `.items()` iterations. -/
def render_plan_json (data : Json) : Except PyErr Unit := do
  let _ ← pyContains "plan_summary" data
  let _ ← pyContains "room_details" data
  let _ ← pyContains "elevation_details" data
  if (← pyContains "plan_summary" data) then
    let summary ← pyIndex data "plan_summary"
    let _ ← pyItems summary
    pure ()
  else pure ()
  if (← pyContains "room_details" data) then
    let rd ← pyIndex data "room_details"
    let rooms ← pyItems rd
    roomsCheck rooms
  else pure ()
  if (← pyContains "elevation_details" data) then
    let ed ← pyIndex data "elevation_details"
    let sides ← pyItems ed
    elevationsCheck sides
  else pure ()

/-- `try_render_plan_json(bot_msg)`: parse, test the three keys, render;
any exception along the way yields `False`. -/
def try_render_plan_json (bot_msg : String) : Bool :=
  match pyParseJson bot_msg with
  | none => false
  | some d =>
      match anyPlanKey d with
      | .error _ => false
      | .ok false => false
      | .ok true =>
          match render_plan_json d with
          | .ok _ => true
          | .error _ => false

/-- The section heading text written into the PDF for the plan summary (the
source file contains a mojibake emoji before `Plan Summary`). -/
def planSummaryHeading : String := "üè† Plan Summary"

/-- The PDF line(s) for one plan-summary entry: one level of a nested mapping
is flattened into `Group - Subkey: value` lines, any other value into a
single `Key: value` line. -/
def summaryLine (k : String) (v : Json) : List String :=
  match v with
  | .obj sub =>
      sub.map (fun p =>
        pyTitle (pyUnderscoreToSpace k) ++ " - " ++ pyTitle p.1 ++ ": " ++ pyStr p.2)
  | _ => [pyTitle (pyUnderscoreToSpace k) ++ ": " ++ pyStr v]

/-- `plan_json_to_pdf(data)` reduced to the text lines written into the PDF:
the centered title, then — only when `plan_summary` is present — its heading
and flattened key/value lines.  `room_details` and `elevation_details` are
never consulted. -/
def plan_json_to_pdf (data : Json) : Except PyErr (List String) :=
  match pyContains "plan_summary" data with
  | .error e => .error e
  | .ok false => .ok ["Plan Analysis Report"]
  | .ok true =>
      match pyIndex data "plan_summary" with
      | .error e => .error e
      | .ok summary =>
          match pyItems summary with
          | .error e => .error e
          | .ok kvs =>
              .ok (["Plan Analysis Report", planSummaryHeading]
                ++ (kvs.map (fun p => summaryLine p.1 p.2)).flatten)

/-- One iteration of the module-level export scan: an entry is selected when
`json.loads` succeeds and one of the three plan keys is "in" the result; an
exception means `continue`. -/
def isPlanMsg (msg : String) : Option Json :=
  match pyParseJson msg with
  | none => none
  | some d =>
      match anyPlanKey d with
      | .ok true => some d
      | _ => none

/-- The module-level export scan: walk the transcript from the newest entry
backward and keep the first assistant entry that satisfies `isPlanMsg`. -/
def findPlanMsg (history : List TranscriptEntry) : Option Json :=
  history.reverse.findSome? (fun e => if e.role = "assistant" then isPlanMsg e.msg else none)

/-- `if plan_json_msg:` — the download button is rendered only when the scan
found a (truthy) value. -/
def downloadShown (history : List TranscriptEntry) : Bool :=
  match findPlanMsg history with
  | some d => truthy d
  | none => false

/-!
## Helper lemmas
-/

theorem pyLookup_filter (q : String × Json → Bool) (kvs : List (String × Json)) (k : String)
    (hq : ∀ v, q (k, v) = true) :
    pyLookup (kvs.filter q) k = pyLookup kvs k := by
  induction kvs with
  | nil => rfl
  | cons p rest ih =>
      obtain ⟨k0, v0⟩ := p
      by_cases hk : k0 = k
      · subst hk
        simp [List.filter_cons, hq v0, pyLookup]
      · cases hqp : q (k0, v0) with
        | true => simp [List.filter_cons, hqp, pyLookup, hk, ih]
        | false => simp [List.filter_cons, hqp, pyLookup, hk, ih]

theorem findSome?_append_eq (f : α → Option β) (l1 l2 : List α) :
    (l1 ++ l2).findSome? f =
      match l1.findSome? f with
      | some b => some b
      | none => l2.findSome? f := by
  induction l1 with
  | nil => simp [List.findSome?]
  | cons a l1 ih =>
      cases hfa : f a with
      | some b => simp [List.findSome?, hfa]
      | none => simp [List.findSome?, hfa, ih]

theorem findSome?_eq_none_of_forall (f : α → Option β) (l : List α)
    (h : ∀ x ∈ l, f x = none) : l.findSome? f = none := by
  induction l with
  | nil => rfl
  | cons a l ih =>
      have ha := h a (by simp)
      simp only [List.findSome?, ha]
      exact ih (fun x hx => h x (by simp [hx]))

theorem toLower_ws_fix (c : Char) (h : isPyWs c = true) : c.toLower = c := by
  unfold isPyWs at h
  simp only [Bool.or_eq_true, decide_eq_true_eq] at h
  rcases h with ((((h | h) | h) | h) | h) | h <;> subst h <;> decide

theorem isPyWs_toLower (c : Char) (h : isPyWs c = true) : isPyWs c.toLower = true := by
  rw [toLower_ws_fix c h]
  exact h

theorem pyStripList_eq_nil (l : List Char) (h : ∀ c ∈ l, isPyWs c = true) :
    pyStripList l = [] := by
  unfold pyStripList
  have h1 : l.dropWhile isPyWs = [] := List.dropWhile_eq_nil_iff.mpr h
  simp [h1]

theorem pyStrip_pyLower_eq_empty (msg : String) (h : ∀ c ∈ msg.data, isPyWs c = true) :
    pyStrip (pyLower msg) = "" := by
  have hall : ∀ c ∈ msg.data.map Char.toLower, isPyWs c = true := by
    intro c hc
    obtain ⟨c0, hc0, rfl⟩ := List.mem_map.mp hc
    exact isPyWs_toLower c0 (h c0 hc0)
  show String.mk (pyStripList (msg.data.map Char.toLower)) = ""
  rw [pyStripList_eq_nil _ hall]

theorem metadataParts_nil : metadataParts [] = [] := rfl

theorem format_congr_select (r1 r2 : List (String × Json))
    (h : selectResponses r1 = selectResponses r2) :
    format_workflow_response r1 = format_workflow_response r2 := by
  unfold format_workflow_response responseBlocks collectParts
  rw [h]

/-!
## Claim theorems
-/

/-- C7: when the workflow mode is chat, no file attachments are included in
any dispatched request: the sidebar widget yields no files and no upload
click, the chat-input handler passes `None` as the files argument, and a
request built with no files carries an empty files payload. -/
theorem C7_chat_mode_sends_no_files
    (mode : String) (selected : List UploadedFile) (pressed : Bool)
    (uploaded : Option (List UploadedFile)) (msg user_id session_id : String)
    (hmode : mode = "chat") :
    sidebarUploadedFiles mode selected = none ∧
    sidebarUploadClicked mode selected pressed = false ∧
    filesToSendOnChat mode uploaded = none ∧
    (send_to_workflow_request msg none user_id session_id mode).filesPayload = none := by
  subst hmode
  refine ⟨rfl, rfl, rfl, rfl⟩

theorem C7_chat_mode_sends_no_files_witness :
    sidebarUploadedFiles "chat" [⟨"a.pdf", [1, 2], "application/pdf"⟩] = none ∧
    sidebarUploadClicked "chat" [⟨"a.pdf", [1, 2], "application/pdf"⟩] true = false ∧
    filesToSendOnChat "chat" (some [⟨"a.pdf", [1, 2], "application/pdf"⟩]) = none ∧
    (send_to_workflow_request "hi" none "u" "s" "chat").filesPayload = none :=
  C7_chat_mode_sends_no_files "chat" [⟨"a.pdf", [1, 2], "application/pdf"⟩] true
    (some [⟨"a.pdf", [1, 2], "application/pdf"⟩]) "hi" "u" "s" rfl

/-- C8: for every call to `send_to_workflow` with endpoint type boq and an
empty or whitespace-only message, the dispatched form data's `user_input`
field equals the default instruction string, and the boq endpoint is used. -/
theorem C8_boq_empty_message_default
    (msg : String) (files : Option (List UploadedFile)) (user_id session_id : String)
    (hws : ∀ c ∈ msg.data, isPyWs c = true) :
    pyLookup (send_to_workflow_request msg files user_id session_id "boq").formData "user_input"
      = some "Generate BOQ for uploaded files" ∧
    (send_to_workflow_request msg files user_id session_id "boq").endpoint = BOQ_ENDPOINT := by
  have hstrip := pyStrip_pyLower_eq_empty msg hws
  simp [send_to_workflow_request, hstrip, dictSet, pyLookup]

theorem C8_boq_empty_message_default_witness :
    pyLookup (send_to_workflow_request " " none "u" "s" "boq").formData "user_input"
      = some "Generate BOQ for uploaded files" ∧
    (send_to_workflow_request " " none "u" "s" "boq").endpoint = BOQ_ENDPOINT :=
  C8_boq_empty_message_default " " none "u" "s" (by decide)

/-- C10: identity resolution persists overrides asymmetrically: a non-empty
session override is written back into the stored state while a non-empty user
override leaves the stored user id unchanged; with no override, a missing
stored value is filled with the fresh identifier and a present stored value
is returned unchanged on every subsequent resolution. -/
theorem C10_identity_resolution_asymmetry
    (uo so fu fs : String) (st : StSessionState) :
    (so ≠ "" →
      (resolveIdentity uo so fu fs st).2.1 = so ∧
      (resolveIdentity uo so fu fs st).2.2.sessionId = some so) ∧
    (uo ≠ "" →
      (resolveIdentity uo so fu fs st).1 = uo ∧
      (resolveIdentity uo so fu fs st).2.2.userId = st.userId) ∧
    (uo = "" → st.userId = none →
      (resolveIdentity uo so fu fs st).1 = fu ∧
      (resolveIdentity uo so fu fs st).2.2.userId = some fu) ∧
    (∀ v, uo = "" → st.userId = some v →
      (resolveIdentity uo so fu fs st).1 = v ∧
      (resolveIdentity uo so fu fs st).2.2.userId = some v) ∧
    (so = "" → st.sessionId = none →
      (resolveIdentity uo so fu fs st).2.1 = fs ∧
      (resolveIdentity uo so fu fs st).2.2.sessionId = some fs) ∧
    (∀ v, so = "" → st.sessionId = some v →
      (resolveIdentity uo so fu fs st).2.1 = v ∧
      (resolveIdentity uo so fu fs st).2.2.sessionId = some v) := by
  refine ⟨?_, ?_, ?_, ?_, ?_, ?_⟩
  · intro h
    by_cases huo : uo = "" <;> simp [resolveIdentity, h, huo]
  · intro h
    by_cases hso : so = "" <;> simp [resolveIdentity, h, hso]
  · intro h h2
    by_cases hso : so = "" <;> simp [resolveIdentity, h, h2, hso]
  · intro v h h2
    by_cases hso : so = "" <;> simp [resolveIdentity, h, h2, hso]
  · intro h h2
    by_cases huo : uo = "" <;> simp [resolveIdentity, h, h2, huo]
  · intro v h h2
    by_cases huo : uo = "" <;> simp [resolveIdentity, h, h2, huo]

theorem C10_identity_resolution_asymmetry_witness :
    ((resolveIdentity "alice" "sess1" "f1" "f2" ⟨some "stored", none⟩).1 = "alice" ∧
     (resolveIdentity "alice" "sess1" "f1" "f2" ⟨some "stored", none⟩).2.2.userId
       = (⟨some "stored", none⟩ : StSessionState).userId) ∧
    ((resolveIdentity "" "" "f1" "f2" ⟨none, none⟩).1 = "f1" ∧
     (resolveIdentity "" "" "f1" "f2" ⟨none, none⟩).2.2.userId = some "f1") ∧
    ((resolveIdentity "" "" "f3" "f4" ⟨some "f1", some "f2"⟩).1 = "f1" ∧
     (resolveIdentity "" "" "f3" "f4" ⟨some "f1", some "f2"⟩).2.2.userId = some "f1") :=
  ⟨(C10_identity_resolution_asymmetry "alice" "sess1" "f1" "f2" ⟨some "stored", none⟩).2.1
      (by decide),
   (C10_identity_resolution_asymmetry "" "" "f1" "f2" ⟨none, none⟩).2.2.1 rfl rfl,
   (C10_identity_resolution_asymmetry "" "" "f3" "f4" ⟨some "f1", some "f2"⟩).2.2.2.1 "f1"
      rfl rfl⟩

/-- C5: `send_to_workflow` never raises (the handler is a total function of
the gateway outcome): every request exception becomes a single red-prefixed
inline error string; a payload with falsy `success` is rendered with the
backend-supplied error string verbatim, falling back to "Unknown error" when
the error field is absent; a normalizer exception is also caught and
red-prefixed; and the chat turn appends to the transcript, leaving prior
history intact as a prefix. -/
theorem C5_gateway_error_handling
    (e : String) (kvs : List (String × Json)) (err : String)
    (history : List TranscriptEntry) (user_msg : String) (o : GatewayOutcome) :
    send_to_workflow_result (.requestException e) = ":red[Backend error: " ++ e ++ "]" ∧
    (truthy ((pyLookup kvs "success").getD .null) = false →
      (pyLookup kvs "error" = some (.str err) →
        send_to_workflow_result (.jsonValue (.obj kvs)) = ":red[Error: " ++ err ++ "]") ∧
      (pyLookup kvs "error" = none →
        send_to_workflow_result (.jsonValue (.obj kvs)) = ":red[Error: Unknown error]")) ∧
    (∀ perr, truthy ((pyLookup kvs "success").getD .null) = true →
      format_workflow_response kvs = .error perr →
      send_to_workflow_result (.jsonValue (.obj kvs))
        = ":red[Unexpected error: " ++ pyErrMsg perr ++ "]") ∧
    chatTurn history user_msg o
      = history ++ [{ role := "user", msg := user_msg },
                    { role := "assistant", msg := send_to_workflow_result o }] := by
  refine ⟨rfl, ?_, ?_, by simp [chatTurn]⟩
  · intro hsucc
    constructor
    · intro herr
      simp [send_to_workflow_result, hsucc, herr, pyStr]
    · intro herr
      simp [send_to_workflow_result, hsucc, herr, pyStr]
  · intro perr hsucc hfmt
    simp [send_to_workflow_result, hsucc, hfmt]

theorem C5_gateway_error_handling_witness :
    send_to_workflow_result (.requestException "timeout") = ":red[Backend error: timeout]" ∧
    send_to_workflow_result
        (.jsonValue (.obj [("success", .bool false), ("error", .str "file too large")]))
      = ":red[Error: file too large]" :=
  ⟨(C5_gateway_error_handling "timeout" [] "x" [] "" (.requestException "timeout")).1,
   ((C5_gateway_error_handling "timeout"
        [("success", .bool false), ("error", .str "file too large")]
        "file too large" [] "" (.requestException "timeout")).2.1 rfl).1 rfl⟩

/-- C2: per entry, the metadata inspection checks `boq_data`, then
`analysis_data`, then `interview_data`, the first present key winning and the
others untouched; a matched mapping with a `content` key contributes that
value, a matched mapping without one contributes its `format_dict_data`
flattening, a matched string is appended directly; and a step whose metadata
is a mapping contributes exactly its truthy content plus that metadata
contribution. -/
theorem C2_metadata_first_key_wins
    (mkvs kvs dkvs : List (String × Json)) (v c : Json) (s : String) :
    (pyLookup mkvs "boq_data" = some v → metadataParts mkvs = handleData v) ∧
    (pyLookup mkvs "boq_data" = none → pyLookup mkvs "analysis_data" = some v →
      metadataParts mkvs = handleData v) ∧
    (pyLookup mkvs "boq_data" = none → pyLookup mkvs "analysis_data" = none →
      pyLookup mkvs "interview_data" = some v → metadataParts mkvs = handleData v) ∧
    (pyLookup mkvs "boq_data" = none → pyLookup mkvs "analysis_data" = none →
      pyLookup mkvs "interview_data" = none → metadataParts mkvs = []) ∧
    (pyLookup dkvs "content" = some c → handleData (.obj dkvs) = [c]) ∧
    (pyLookup dkvs "content" = none →
      handleData (.obj dkvs) = [.str (format_dict_data (.obj dkvs))]) ∧
    handleData (.str s) = [.str s] ∧
    (pyLookup kvs "metadata" = some (.obj mkvs) →
      processStep (.obj kvs) =
        .ok ((if truthy ((pyLookup kvs "content").getD (.str "")) then
                [(pyLookup kvs "content").getD (.str "")] else [])
             ++ metadataParts mkvs)) := by
  refine ⟨?_, ?_, ?_, ?_, ?_, ?_, rfl, ?_⟩
  · intro h
    simp [metadataParts, h]
  · intro h1 h2
    simp [metadataParts, h1, h2]
  · intro h1 h2 h3
    simp [metadataParts, h1, h2, h3]
  · intro h1 h2 h3
    simp [metadataParts, h1, h2, h3]
  · intro h
    simp [handleData, h]
  · intro h
    simp [handleData, h]
  · intro h
    simp only [processStep, h, Option.getD]
    cases mkvs with
    | nil => simp [truthy, metadataParts, pyLookup]
    | cons p rest => simp [truthy]

theorem C2_metadata_first_key_wins_witness :
    metadataParts [("analysis_data", .obj [("room_count", .num 3)])]
      = handleData (.obj [("room_count", .num 3)]) ∧
    processStep (.obj [("content", .str "hi"),
        ("metadata", .obj [("analysis_data", .obj [("room_count", .num 3)])])])
      = .ok [.str "hi", .str "**Room Count:** 3"] :=
  ⟨(C2_metadata_first_key_wins [("analysis_data", .obj [("room_count", .num 3)])]
      [("content", .str "hi"),
        ("metadata", .obj [("analysis_data", .obj [("room_count", .num 3)])])]
      [("x", .num 1)] (.obj [("room_count", .num 3)]) (.num 7) "t").2.1 rfl rfl,
   (C2_metadata_first_key_wins [("analysis_data", .obj [("room_count", .num 3)])]
      [("content", .str "hi"),
        ("metadata", .obj [("analysis_data", .obj [("room_count", .num 3)])])]
      [("x", .num 1)] (.obj [("room_count", .num 3)]) (.num 7) "t").2.2.2.2.2.2.2 rfl⟩

/-- C4: the results container is selected by checking `workflow_responses`,
`analysis_results`, `boq_results`, `chat_responses` in that fixed priority
order, the first present key winning; the whole normalization depends only on
the selected container (so lower-priority containers contribute nothing); and
processing a concatenation of entries yields the concatenation of their
blocks, preserving the entries' relative order. -/
theorem C4_container_priority_and_order
    (result : List (String × Json)) (v : Json) :
    (pyLookup result "workflow_responses" = some v →
      selectResponses result = v ∧
      format_workflow_response result
        = format_workflow_response [("workflow_responses", v)]) ∧
    (pyLookup result "workflow_responses" = none →
      pyLookup result "analysis_results" = some v →
      selectResponses result = v ∧
      format_workflow_response result
        = format_workflow_response [("analysis_results", v)]) ∧
    (pyLookup result "workflow_responses" = none →
      pyLookup result "analysis_results" = none →
      pyLookup result "boq_results" = some v →
      selectResponses result = v ∧
      format_workflow_response result
        = format_workflow_response [("boq_results", v)]) ∧
    (pyLookup result "workflow_responses" = none →
      pyLookup result "analysis_results" = none →
      pyLookup result "boq_results" = none →
      pyLookup result "chat_responses" = some v →
      selectResponses result = v ∧
      format_workflow_response result
        = format_workflow_response [("chat_responses", v)]) ∧
    (pyLookup result "workflow_responses" = none →
      pyLookup result "analysis_results" = none →
      pyLookup result "boq_results" = none →
      pyLookup result "chat_responses" = none →
      selectResponses result = Json.arr []) ∧
    (∀ xs ys px py, stepsParts xs = .ok px → stepsParts ys = .ok py →
      stepsParts (xs ++ ys) = .ok (px ++ py)) := by
  refine ⟨?_, ?_, ?_, ?_, ?_, ?_⟩
  · intro h
    have hsel : selectResponses result = v := by simp [selectResponses, h]
    exact ⟨hsel, format_congr_select _ _ (by rw [hsel]; rfl)⟩
  · intro h1 h2
    have hsel : selectResponses result = v := by simp [selectResponses, h1, h2]
    exact ⟨hsel, format_congr_select _ _ (by rw [hsel]; rfl)⟩
  · intro h1 h2 h3
    have hsel : selectResponses result = v := by simp [selectResponses, h1, h2, h3]
    exact ⟨hsel, format_congr_select _ _ (by rw [hsel]; rfl)⟩
  · intro h1 h2 h3 h4
    have hsel : selectResponses result = v := by simp [selectResponses, h1, h2, h3, h4]
    exact ⟨hsel, format_congr_select _ _ (by rw [hsel]; rfl)⟩
  · intro h1 h2 h3 h4
    simp [selectResponses, h1, h2, h3, h4]
  · intro xs
    induction xs with
    | nil =>
        intro ys px py h1 h2
        simp only [stepsParts] at h1
        rw [Except.ok.injEq] at h1
        subst h1
        simpa using h2
    | cons x xs ih =>
        intro ys px py h1 h2
        cases hp : processStep x with
        | error e =>
            simp [stepsParts, hp] at h1
        | ok p =>
            cases hs : stepsParts xs with
            | error e2 =>
                simp [stepsParts, hp, hs] at h1
            | ok ps =>
                simp only [stepsParts, hp, hs] at h1
                rw [Except.ok.injEq] at h1
                subst h1
                have hrec := ih ys ps py hs h2
                simp [stepsParts, hp, hrec, List.append_assoc]

theorem C4_container_priority_and_order_witness :
    selectResponses [("analysis_results", .arr [.obj [("content", .str "B")]]),
                     ("workflow_responses", .arr [.obj [("content", .str "A")]])]
      = .arr [.obj [("content", .str "A")]] ∧
    format_workflow_response [("analysis_results", .arr [.obj [("content", .str "B")]]),
                              ("workflow_responses", .arr [.obj [("content", .str "A")]])]
      = format_workflow_response [("workflow_responses", .arr [.obj [("content", .str "A")]])] ∧
    stepsParts ([.obj [("content", .str "A")]] ++ [.obj [("content", .str "B")]])
      = .ok ([.str "A"] ++ [.str "B"]) :=
  ⟨((C4_container_priority_and_order
      [("analysis_results", .arr [.obj [("content", .str "B")]]),
       ("workflow_responses", .arr [.obj [("content", .str "A")]])]
      (.arr [.obj [("content", .str "A")]])).1 rfl).1,
   ((C4_container_priority_and_order
      [("analysis_results", .arr [.obj [("content", .str "B")]]),
       ("workflow_responses", .arr [.obj [("content", .str "A")]])]
      (.arr [.obj [("content", .str "A")]])).1 rfl).2,
   (C4_container_priority_and_order [] (.arr [])).2.2.2.2.2
     [.obj [("content", .str "A")]] [.obj [("content", .str "B")]]
     [.str "A"] [.str "B"] rfl rfl⟩

/-- C1 counterexample: the claim promises that every payload with `success`
true yields a (non-empty) normalizer result, but on a payload whose selected
container holds a non-mapping entry the normalizer raises `AttributeError`
(`step.get` on an `int`) instead of returning a result; the caller surfaces
it as an "Unexpected error" line rather than the fallback block. -/
theorem C1_success_payload_counterexample :
    format_workflow_response [("success", .bool true), ("workflow_responses", .arr [.num 1])]
      = .error (.attributeError (quoted "int" ++ " object has no attribute " ++ quoted "get")) :=
  rfl

/-- C1 (amended): for every payload on which block collection completes
without a Python exception, the returned block sequence is never empty: zero
collected blocks yield exactly the single fallback block, and otherwise the
collected blocks are returned unchanged. -/
theorem C1_nonempty_blocks_amended
    (result : List (String × Json)) (blocks : List Json)
    (h : responseBlocks result = .ok blocks) :
    blocks ≠ [] ∧
    (collectParts result = .ok [] → blocks = [fallbackBlock]) ∧
    (∀ parts, collectParts result = .ok parts → parts ≠ [] → blocks = parts) := by
  cases hc : collectParts result with
  | error e =>
      rw [responseBlocks, hc] at h
      cases h
  | ok parts =>
      simp only [responseBlocks, hc] at h
      rw [Except.ok.injEq] at h
      subst h
      refine ⟨?_, ?_, ?_⟩
      · cases parts with
        | nil => simp
        | cons a l => simp [List.isEmpty]
      · intro h0
        rw [Except.ok.injEq] at h0
        subst h0
        simp
      · intro parts2 h0 hne
        rw [Except.ok.injEq] at h0
        subst h0
        cases parts with
        | nil => exact absurd rfl hne
        | cons a l => simp [List.isEmpty]

theorem C1_nonempty_blocks_amended_witness :
    ([fallbackBlock] : List Json) ≠ [] ∧ ([fallbackBlock] : List Json) = [fallbackBlock] :=
  ⟨(C1_nonempty_blocks_amended [("chat_responses", .arr [])] [fallbackBlock] rfl).1,
   (C1_nonempty_blocks_amended [("chat_responses", .arr [])] [fallbackBlock] rfl).2.1 rfl⟩

/-- C6 counterexample: the scenario payload does produce exactly two blocks,
but the flattened second block is `**Room Count:** 3` — the markdown bold
marker sits between the colon and the value — so neither block contains the
substring `Room Count: 3` claimed by the spec. -/
theorem C6_scenario_counterexample :
    responseBlocks [("success", .bool true),
        ("workflow_responses", .arr [.obj [("content", .str "Found 3 rooms"),
          ("metadata", .obj [("analysis_data", .obj [("room_count", .num 3)])])]])]
      = .ok [.str "Found 3 rooms", .str "**Room Count:** 3"] ∧
    strContains "**Room Count:** 3" "Room Count: 3" = false ∧
    strContains "Found 3 rooms" "Room Count: 3" = false :=
  ⟨rfl, by decide, by decide⟩

/-- C6 (amended): the scenario payload normalizes to exactly two blocks,
`Found 3 rooms` and the flattened string `**Room Count:** 3` (which contains
`Room Count` and `3`, separated by the colon and the markdown bold
marker). -/
theorem C6_scenario_amended :
    responseBlocks [("success", .bool true),
        ("workflow_responses", .arr [.obj [("content", .str "Found 3 rooms"),
          ("metadata", .obj [("analysis_data", .obj [("room_count", .num 3)])])]])]
      = .ok [.str "Found 3 rooms", .str "**Room Count:** 3"] ∧
    format_workflow_response [("success", .bool true),
        ("workflow_responses", .arr [.obj [("content", .str "Found 3 rooms"),
          ("metadata", .obj [("analysis_data", .obj [("room_count", .num 3)])])]])]
      = .ok "Found 3 rooms\n\n**Room Count:** 3" ∧
    strContains "**Room Count:** 3" "Room Count" = true ∧
    strContains "**Room Count:** 3" "3" = true :=
  ⟨rfl, rfl, by decide, by decide⟩

/-- C3 counterexample: `\x7b"plan_summary": 5\x7d` is syntactically valid
JSON containing the recognized key `plan_summary`, yet `try_render_plan_json`
returns a negative result, because rendering raises (`summary.items()` on the
`int` value `5`) and the surrounding `try` converts that to `False`; the
claim promised a positive result for every JSON value containing one of the
three keys. -/
theorem C3_plan_key_present_counterexample :
    pyParseJson "\x7b\"plan_summary\": 5\x7d" = some (.obj [("plan_summary", .num 5)]) ∧
    try_render_plan_json "\x7b\"plan_summary\": 5\x7d" = false :=
  ⟨rfl, rfl⟩

/-- C3 (amended): both detectors return a negative result on input that is
not syntactically valid JSON; for valid JSON, the export-scan predicate is
positive exactly when Python key membership (`key in data` — key presence
for objects, substring for strings, element equality for arrays) accepts one
of the three recognized keys, in which case the parsed value itself is kept
(so exactly the present keys are populated); `try_render_plan_json` is
positive exactly when, in addition, the structured rendering of the present
sections raises no exception. -/
theorem C3_plan_detection_amended (s : String) :
    (pyParseJson s = none → try_render_plan_json s = false ∧ isPlanMsg s = none) ∧
    (∀ d, pyParseJson s = some d →
      (isPlanMsg s = some d ↔ anyPlanKey d = .ok true) ∧
      (try_render_plan_json s = true ↔
        anyPlanKey d = .ok true ∧ render_plan_json d = .ok ())) ∧
    (∀ kvs, pyParseJson s = some (.obj kvs) →
      (isPlanMsg s = some (.obj kvs) ↔
        ((pyLookup kvs "plan_summary").isSome = true ∨
         (pyLookup kvs "room_details").isSome = true ∨
         (pyLookup kvs "elevation_details").isSome = true))) := by
  refine ⟨?_, ?_, ?_⟩
  · intro h
    exact ⟨by simp [try_render_plan_json, h], by simp [isPlanMsg, h]⟩
  · intro d h
    constructor
    · cases ha : anyPlanKey d with
      | error e => simp [isPlanMsg, h, ha]
      | ok b => cases b <;> simp [isPlanMsg, h, ha]
    · cases ha : anyPlanKey d with
      | error e => simp [try_render_plan_json, h, ha]
      | ok b =>
          cases b with
          | false => simp [try_render_plan_json, h, ha]
          | true =>
              cases hr : render_plan_json d with
              | error e2 => simp [try_render_plan_json, h, ha, hr]
              | ok u => simp [try_render_plan_json, h, ha, hr]
  · intro kvs h
    cases b1 : (pyLookup kvs "plan_summary").isSome with
    | true => simp [isPlanMsg, h, anyPlanKey, pyContains, b1]
    | false =>
        cases b2 : (pyLookup kvs "room_details").isSome with
        | true => simp [isPlanMsg, h, anyPlanKey, pyContains, b1, b2]
        | false =>
            cases b3 : (pyLookup kvs "elevation_details").isSome with
            | true => simp [isPlanMsg, h, anyPlanKey, pyContains, b1, b2, b3]
            | false => simp [isPlanMsg, h, anyPlanKey, pyContains, b1, b2, b3]

theorem C3_plan_detection_amended_witness :
    try_render_plan_json "\x7b\"plan_summary\": \x7b\"total_rooms\": 4\x7d\x7d" = true :=
  (((C3_plan_detection_amended "\x7b\"plan_summary\": \x7b\"total_rooms\": 4\x7d\x7d").2.1
      (.obj [("plan_summary", .obj [("total_rooms", .num 4)])]) rfl).2).mpr ⟨rfl, rfl⟩

/-- C9: the PDF export depends only on the `plan_summary` section — removing
`room_details` and `elevation_details` never changes its output — and
flattens one level of nested mappings into `Group - Subkey: value` lines (the
concrete instance shows the exact lines, with the rooms section absent from
the output); the exported plan is the first assistant entry, scanning from
the newest transcript entry backward, whose message parses as plan JSON; and
when no such entry exists the download control is not rendered. -/
theorem C9_pdf_summary_only_and_scan
    (kvs : List (String × Json)) (pre post : List TranscriptEntry)
    (e : TranscriptEntry) (d : Json) (history : List TranscriptEntry) :
    plan_json_to_pdf (.obj (kvs.filter (fun p =>
        !(p.1 = "room_details") && !(p.1 = "elevation_details"))))
      = plan_json_to_pdf (.obj kvs) ∧
    (e.role = "assistant" → isPlanMsg e.msg = some d →
      (∀ e2 ∈ post, e2.role = "assistant" → isPlanMsg e2.msg = none) →
      findPlanMsg (pre ++ e :: post) = some d) ∧
    (findPlanMsg history = none → downloadShown history = false) ∧
    plan_json_to_pdf (.obj [("plan_summary",
        .obj [("site", .obj [("area", .num 5)]), ("total_rooms", .num 4)]),
        ("room_details", .obj [("r1", .obj [])])])
      = .ok ["Plan Analysis Report", planSummaryHeading, "Site - Area: 5", "Total Rooms: 4"] := by
  refine ⟨?_, ?_, ?_, rfl⟩
  · have hq : ∀ v : Json, (fun p : String × Json =>
        !(p.1 = "room_details") && !(p.1 = "elevation_details")) ("plan_summary", v) = true := by
      intro v
      simp
    have hl := pyLookup_filter (fun p : String × Json =>
        !(p.1 = "room_details") && !(p.1 = "elevation_details")) kvs "plan_summary" hq
    simp only [plan_json_to_pdf, pyContains, pyIndex, hl]
  · intro hrole hmsg hpost
    have hnone : post.reverse.findSome?
        (fun e2 => if e2.role = "assistant" then isPlanMsg e2.msg else none) = none := by
      apply findSome?_eq_none_of_forall
      intro x hx
      have hx2 : x ∈ post := List.mem_reverse.mp hx
      by_cases hr : x.role = "assistant"
      · simp [hr, hpost x hx2 hr]
      · simp [hr]
    unfold findPlanMsg
    rw [List.reverse_append, List.reverse_cons]
    rw [findSome?_append_eq]
    have h1 : (post.reverse ++ [e]).findSome?
        (fun e2 => if e2.role = "assistant" then isPlanMsg e2.msg else none) = some d := by
      rw [findSome?_append_eq, hnone]
      simp [List.findSome?, hrole, hmsg]
    rw [h1]
  · intro h
    simp [downloadShown, h]

theorem C9_pdf_summary_only_and_scan_witness :
    findPlanMsg [⟨"assistant", "\x7b\"plan_summary\": \x7b\x7d\x7d"⟩]
      = some (.obj [("plan_summary", .obj [])]) ∧
    plan_json_to_pdf (.obj ([("plan_summary", .num 1), ("room_details", .num 2)].filter
        (fun p => !(p.1 = "room_details") && !(p.1 = "elevation_details"))))
      = plan_json_to_pdf (.obj [("plan_summary", .num 1), ("room_details", .num 2)]) :=
  ⟨(C9_pdf_summary_only_and_scan [] [] []
      ⟨"assistant", "\x7b\"plan_summary\": \x7b\x7d\x7d"⟩
      (.obj [("plan_summary", .obj [])]) []).2.1 rfl rfl (fun _ he2 => nomatch he2),
   (C9_pdf_summary_only_and_scan [("plan_summary", .num 1), ("room_details", .num 2)]
      [] [] ⟨"assistant", ""⟩ .null []).1⟩
